import Mathlib

/-!
Verification of the PPPoE session supervisor (pppoe-socks).

The development shallowly embeds the two core source files:
  src/pppoe/client.rs  (PPPoEClient: one dialer child per session)
  src/pppoe/manager.rs (PPPoEManager: registry, event loop, health, rotation)

Modelling conventions:
- instants (chrono DateTime) are abstract `Nat` timestamps passed in as `now`;
- process ids are `Nat`; a spawn attempt's outcome is a `SpawnResult` parameter;
- side effects (killing a child, emitting an event, sleeping, spawning) are
  returned as explicit effect lists, in program order;
- Rust `u32`/`u64` counters are `Nat` (no operation here can overflow in the
  claims' ranges; string-to-integer parsing keeps the `u32`/`u8` range checks);
- Rust `str` operations are re-implemented over `List Char` (ASCII inputs).
-/

namespace PppoeSocks

abbrev Instant := Nat

/-- Events sent from a session client to the manager (enum PpmsEvent in
manager.rs). -/
inductive PpmsEvent where
  | IpUpdated (interface : String) (local_ip : Option String) (connected_at : Option Instant)
  | Disconnected (interface : String)
deriving DecidableEq

/-- Commands sent from the manager to a session client (enum ClientCommand in
manager.rs). -/
inductive ClientCommand where
  | Connect
  | Disconnect
  | Reconnect
deriving DecidableEq

/-- Outcome of one `Command::spawn` attempt, supplied as a parameter to the
embedded `connect` since the OS decides it. -/
inductive SpawnResult where
  | ok (pid : Nat)
  | err
deriving DecidableEq

/-- Observable side effects of one client step, in program order.
`kill` is `child.kill()`, `emit` is `event_sender.send`, `sleepSecs` is
`tokio::time::sleep`, `spawnAttempt` records the attempted `pppd` command
line, `spawnReader` is the `tokio::spawn` of the stdout-reader task. -/
inductive ClientEffect where
  | kill (pid : Nat)
  | emit (e : PpmsEvent)
  | sleepSecs (n : Nat)
  | spawnAttempt (args : List String)
  | spawnReader
deriving DecidableEq

/-- The mutable fields of struct PPPoEClient (client.rs lines 9-20); the two
channel handles are modelled by the effect lists instead. -/
structure ClientState where
  username : String
  password : String
  interface : String
  pppd : Option Nat
  dry_run : Bool
  should_be_connected : Bool
  reconnect_attempts : Nat
  max_reconnect_attempts : Nat
deriving DecidableEq

/-- Strip every leading repetition of "ppp", as Rust
`trim_start_matches("ppp")` does (it removes the pattern repeatedly). -/
def trimStartPPP : List Char → List Char
  | 'p' :: 'p' :: 'p' :: rest => trimStartPPP rest
  | s => s

/-- Rust `str::parse` for an unsigned integer type whose exclusive upper bound
is `bound`: an optional leading plus sign, then one or more ASCII digits,
value in range; anything else is a parse error (`none`). -/
def parseUint (bound : Nat) (s : List Char) : Option Nat :=
  let t := match s with
    | c :: rest => if c = '+' then rest else c :: rest
    | [] => []
  if t.isEmpty || !(t.all Char.isDigit) then none
  else
    let n := t.foldl (fun acc c => acc * 10 + (c.toNat - 48)) 0
    if n < bound then some n else none

/-- The `pppd` command line built in connect (client.rs lines 169-182). -/
def pppdArgs (s : ClientState) : List String :=
  ["pppd", "pty", "pppoe", "noauth", "nodetach", "usepeerdns",
   "ifname", s.interface, "user", s.username, "password", s.password]

/-- PPPoEClient::connect (client.rs lines 131-233).  The dry-run branch
simulates a connection (sleep 1 s, reset the attempt counter, emit a fake
IpUpdated).  The real branch attempts the spawn: on success it stores the
child handle and spawns the stdout reader; on failure it only logs — the
state is unchanged and nothing further is scheduled. -/
def connect (s : ClientState) (spawn : SpawnResult) (now : Instant) :
    ClientState × List ClientEffect :=
  if s.dry_run then
    let num := (parseUint (2 ^ 8) (trimStartPPP s.interface.data)).getD 0
    let fakeIp := "10.0." ++ toString num ++ ".1"
    ({ s with reconnect_attempts := 0 },
      [ClientEffect.sleepSecs 1,
       ClientEffect.emit (PpmsEvent.IpUpdated s.interface (some fakeIp) (some now))])
  else
    match spawn with
    | SpawnResult.ok pid =>
      ({ s with pppd := some pid },
        [ClientEffect.spawnAttempt (pppdArgs s), ClientEffect.spawnReader])
    | SpawnResult.err =>
      (s, [ClientEffect.spawnAttempt (pppdArgs s)])

/-- PPPoEClient::disconnect (client.rs lines 235-239): take and kill the child
if one exists; nothing else. -/
def disconnect (s : ClientState) : ClientState × List ClientEffect :=
  match s.pppd with
  | some pid => ({ s with pppd := none }, [ClientEffect.kill pid])
  | none => (s, [])

/-- One iteration of the command arm of PPPoEClient::run's select loop
(client.rs lines 54-76). -/
def handleCommand (s : ClientState) (cmd : ClientCommand) (spawn : SpawnResult)
    (now : Instant) : ClientState × List ClientEffect :=
  match cmd with
  | ClientCommand.Connect =>
    let s := { s with should_be_connected := true }
    if s.pppd.isNone then
      let s := { s with reconnect_attempts := 0 }
      connect s spawn now
    else (s, [])
  | ClientCommand.Disconnect =>
    let s := { s with should_be_connected := false, reconnect_attempts := 0 }
    disconnect s
  | ClientCommand.Reconnect =>
    let s := { s with should_be_connected := true, reconnect_attempts := 0 }
    let r1 := disconnect s
    let r2 := connect r1.1 spawn now
    (r2.1, r1.2 ++ [ClientEffect.sleepSecs 2] ++ r2.2)

/-- The child-exit arm of PPPoEClient::run's select loop (client.rs lines
78-126): clear the handle, emit Disconnected, and, when the intent is up and
attempts are not exhausted (a maximum of 0 means unbounded), increment the
attempt counter, sleep min(5 * attempts, 30) seconds and respawn; when
exhausted, latch the intent down. -/
def handleChildExit (s : ClientState) (spawn : SpawnResult) (now : Instant) :
    ClientState × List ClientEffect :=
  let s := { s with pppd := none }
  let emitEff := [ClientEffect.emit (PpmsEvent.Disconnected s.interface)]
  if s.should_be_connected then
    if s.max_reconnect_attempts = 0 ∨ s.reconnect_attempts < s.max_reconnect_attempts then
      let s := { s with reconnect_attempts := s.reconnect_attempts + 1 }
      let delay := min (5 * s.reconnect_attempts) 30
      let r := connect s spawn now
      (r.1, emitEff ++ [ClientEffect.sleepSecs delay] ++ r.2)
    else
      ({ s with should_be_connected := false }, emitEff)
  else
    (s, emitEff)

/-- The sleep durations occurring in an effect list, in order. -/
def sleepsOf (effs : List ClientEffect) : List Nat :=
  effs.filterMap fun e => match e with
    | ClientEffect.sleepSecs n => some n
    | _ => none

/-- The events emitted in an effect list, in order. -/
def emittedEvents (effs : List ClientEffect) : List PpmsEvent :=
  effs.filterMap fun e => match e with
    | ClientEffect.emit ev => some ev
    | _ => none

/-- How many Disconnected events an effect list emits. -/
def disconnectedCount (effs : List ClientEffect) : Nat :=
  (emittedEvents effs).countP fun ev => match ev with
    | PpmsEvent.Disconnected _ => true
    | _ => false

/-- A client in the Idle state: no child, intent down. -/
def idleClient : ClientState :=
  { username := "u", password := "p", interface := "ppp0", pppd := none,
    dry_run := false, should_be_connected := false,
    reconnect_attempts := 0, max_reconnect_attempts := 10 }

/-- A freshly started client with a live child (intent up, attempts 0,
max 10 as set by PPPoEClient::new). -/
def freshClient : ClientState :=
  { username := "u", password := "p", interface := "ppp0", pppd := some 1,
    dry_run := false, should_be_connected := true,
    reconnect_attempts := 0, max_reconnect_attempts := 10 }

/-- C1 counterexample.  Issuing Disconnect twice against an Idle client emits
zero Disconnected events (not two): the Disconnect arm never sends an event
itself, and disconnect() on a childless client is a pure no-op, so no child
exit ever fires either.  No dialer is left running. -/
theorem C1_counterexample :
    disconnectedCount ((handleCommand idleClient ClientCommand.Disconnect SpawnResult.err 0).2
      ++ (handleCommand (handleCommand idleClient ClientCommand.Disconnect SpawnResult.err 0).1
            ClientCommand.Disconnect SpawnResult.err 0).2) = 0
    ∧ disconnectedCount ((handleCommand idleClient ClientCommand.Disconnect SpawnResult.err 0).2
      ++ (handleCommand (handleCommand idleClient ClientCommand.Disconnect SpawnResult.err 0).1
            ClientCommand.Disconnect SpawnResult.err 0).2) ≠ 2
    ∧ (handleCommand (handleCommand idleClient ClientCommand.Disconnect SpawnResult.err 0).1
        ClientCommand.Disconnect SpawnResult.err 0).1.pppd = none := by
  decide

/-- C1 amended.  A Disconnect command, in any state, sets the intent down,
resets the backoff counter, and kills the dialer child exactly when one
exists; it emits no event of its own (a Disconnected event arrives only later,
from the child-exit arm, when a killed child's exit is observed), and it
leaves no dialer running. -/
theorem C1_amended (s : ClientState) (spawn : SpawnResult) (now : Instant) :
    (handleCommand s ClientCommand.Disconnect spawn now).1.should_be_connected = false
    ∧ (handleCommand s ClientCommand.Disconnect spawn now).1.reconnect_attempts = 0
    ∧ (handleCommand s ClientCommand.Disconnect spawn now).1.pppd = none
    ∧ (handleCommand s ClientCommand.Disconnect spawn now).2 =
        (match s.pppd with
          | some pid => [ClientEffect.kill pid]
          | none => []) := by
  cases h : s.pppd <;> simp [handleCommand, disconnect, h]

/-- A client in Desired-Up state with no child (as left behind by a spawn
failure or used to attempt one). -/
def upNoChild : ClientState :=
  { idleClient with should_be_connected := true }

/-- C2 counterexample.  When the spawn fails, connect returns with the state
unchanged and only the attempted command line as effect: no sleep is
scheduled, no retry, no event — the claimed respawn-with-backoff does not
happen. -/
theorem C2_counterexample :
    connect upNoChild SpawnResult.err 0
      = (upNoChild, [ClientEffect.spawnAttempt (pppdArgs upNoChild)])
    ∧ sleepsOf (connect upNoChild SpawnResult.err 0).2 = []
    ∧ emittedEvents (connect upNoChild SpawnResult.err 0).2 = [] := by
  decide

/-- C2 amended.  A dialer spawn failure is non-fatal and only logged: the
client state is completely unchanged (so it remains Desired-Up without a
child if it was), and no respawn, sleep or event is scheduled; the system
does not self-heal from a spawn failure without an external command. -/
theorem C2_amended (s : ClientState) (now : Instant) (h : s.dry_run = false) :
    connect s SpawnResult.err now = (s, [ClientEffect.spawnAttempt (pppdArgs s)]) := by
  simp [connect, h]

/-- C2 amended, witnessed at a concrete Desired-Up childless client. -/
theorem C2_amended_witness :
    upNoChild.dry_run = false
    ∧ connect upNoChild SpawnResult.err 0
        = (upNoChild, [ClientEffect.spawnAttempt (pppdArgs upNoChild)]) :=
  ⟨rfl, C2_amended upNoChild 0 rfl⟩

/-- Rust `str::trim`: drop whitespace from both ends (ASCII inputs). -/
def trimList (s : List Char) : List Char :=
  ((s.dropWhile Char.isWhitespace).reverse.dropWhile Char.isWhitespace).reverse

/-- Rust `str::contains pat`: some position of `s` starts with `pat`. -/
def containsSub (pat : List Char) : List Char → Bool
  | [] => pat.isEmpty
  | c :: rest => pat.isPrefixOf (c :: rest) || containsSub pat rest

/-- Rust `str::split_whitespace`: maximal runs of non-whitespace, empties
dropped.  `acc` holds the current token, reversed. -/
def splitWsAux : List Char → List Char → List (List Char)
  | [], acc => if acc.isEmpty then [] else [acc.reverse]
  | c :: rest, acc =>
    if c.isWhitespace then
      (if acc.isEmpty then [] else [acc.reverse]) ++ splitWsAux rest []
    else
      splitWsAux rest (c :: acc)

/-- Rust `str::split_whitespace` on a whole list. -/
def splitWs (s : List Char) : List (List Char) :=
  splitWsAux s []

/-- The marker searched for in pppd stdout (note the double space). -/
def ipLinePattern : List Char := "local  IP address".data

/-- One stdout line as processed by the reader task spawned in connect
(client.rs lines 197-227): trim, look for the marker, and when the trimmed
line has at least 4 whitespace-delimited tokens emit IpUpdated carrying the
4th token and the current instant; otherwise emit nothing. -/
def processLine (interface : String) (line : String) (now : Instant) :
    List PpmsEvent :=
  let trimmed := trimList line.data
  if containsSub ipLinePattern trimmed then
    let parts := splitWs trimmed
    if 4 ≤ parts.length then
      [PpmsEvent.IpUpdated interface (some (String.mk (parts.getD 3 []))) (some now)]
    else []
  else []

/-- One stdout line observed by the running client.  The reader task
(client.rs lines 197-227) is spawned with clones of only the interface name
and the event sender; it has no access to the client struct, so no client
field — in particular `reconnect_attempts` — can change when a line is read. -/
def readerStep (s : ClientState) (line : String) (now : Instant) :
    ClientState × List PpmsEvent :=
  (s, processLine s.interface line now)

/-- A typical pppd address report line. -/
def ipLine : String := "local  IP address 10.20.30.40"

/-- A running client that has already failed three times. -/
def readerClient : ClientState :=
  { freshClient with reconnect_attempts := 3 }

/-- C4 counterexample.  Reading the IP line does emit the IpUpdated event
carrying the 4th token, but it leaves `reconnect_attempts` at 3: a successful
IP parse does not reset the attempt counter (only the dry-run branch of
connect and the command arms reset it). -/
theorem C4_counterexample :
    (readerStep readerClient ipLine 7).2
      = [PpmsEvent.IpUpdated "ppp0" (some "10.20.30.40") (some 7)]
    ∧ (readerStep readerClient ipLine 7).1.reconnect_attempts = 3
    ∧ (readerStep readerClient ipLine 7).1.reconnect_attempts ≠ 0 := by
  decide

/-- C4 amended.  For every stdout line whose trimmed text contains the marker
with double space and splits into at least 4 whitespace-delimited tokens, the
reader emits exactly one IpUpdated carrying the 4th token and the current
instant as connected_at, and the client state — the attempt counter
included — is unchanged. -/
theorem C4_amended (s : ClientState) (line : String) (now : Instant)
    (hc : containsSub ipLinePattern (trimList line.data) = true)
    (hl : 4 ≤ (splitWs (trimList line.data)).length) :
    (readerStep s line now).1 = s
    ∧ (readerStep s line now).2
      = [PpmsEvent.IpUpdated s.interface
          (some (String.mk ((splitWs (trimList line.data)).getD 3 []))) (some now)] := by
  refine ⟨rfl, ?_⟩
  simp [readerStep, processLine, hc, hl]

/-- C4 amended, witnessed at the concrete IP line with attempts at 3. -/
theorem C4_amended_witness :
    containsSub ipLinePattern (trimList ipLine.data) = true
    ∧ 4 ≤ (splitWs (trimList ipLine.data)).length
    ∧ (readerStep readerClient ipLine 7).1 = readerClient
    ∧ (readerStep readerClient ipLine 7).2
      = [PpmsEvent.IpUpdated readerClient.interface
          (some (String.mk ((splitWs (trimList ipLine.data)).getD 3 []))) (some 7)] :=
  ⟨by decide, by decide,
   (C4_amended readerClient ipLine 7 (by decide) (by decide)).1,
   (C4_amended readerClient ipLine 7 (by decide) (by decide)).2⟩

/-- The backoff sleeps produced by `k` consecutive child exits, each respawn
succeeding and the child dying again. -/
def exitDelays : Nat → ClientState → List Nat
  | 0, _ => []
  | k + 1, s =>
    let r := handleChildExit s (SpawnResult.ok 1) 0
    sleepsOf r.2 ++ exitDelays k r.1

/-- C6.  On a child exit with intent up: the Disconnected event is emitted
first; when attempts are not exhausted (max 0 meaning unbounded) the counter
is incremented and exactly one sleep of min(5 * new attempts, 30) seconds
precedes the respawn; when exhausted the intent is latched down, no child
exists and no sleep or spawn is scheduled.  Eight consecutive exits of a
fresh client sleep 5, 10, 15, 20, 25, 30, 30, 30 seconds. -/
theorem C6_claim (s : ClientState) (pid : Nat) (now : Instant)
    (hdry : s.dry_run = false) (hup : s.should_be_connected = true) :
    (handleChildExit s (SpawnResult.ok pid) now).2.head?
      = some (ClientEffect.emit (PpmsEvent.Disconnected s.interface))
    ∧ (s.max_reconnect_attempts = 0 ∨ s.reconnect_attempts < s.max_reconnect_attempts →
        (handleChildExit s (SpawnResult.ok pid) now).1.reconnect_attempts
            = s.reconnect_attempts + 1
        ∧ sleepsOf (handleChildExit s (SpawnResult.ok pid) now).2
            = [min (5 * (s.reconnect_attempts + 1)) 30]
        ∧ (handleChildExit s (SpawnResult.ok pid) now).1.pppd = some pid)
    ∧ (¬(s.max_reconnect_attempts = 0 ∨ s.reconnect_attempts < s.max_reconnect_attempts) →
        (handleChildExit s (SpawnResult.ok pid) now).1.should_be_connected = false
        ∧ (handleChildExit s (SpawnResult.ok pid) now).1.pppd = none
        ∧ sleepsOf (handleChildExit s (SpawnResult.ok pid) now).2 = [])
    ∧ exitDelays 8 freshClient = [5, 10, 15, 20, 25, 30, 30, 30] := by
  by_cases h : s.max_reconnect_attempts = 0 ∨ s.reconnect_attempts < s.max_reconnect_attempts
  · refine ⟨?_, fun _ => ⟨?_, ?_, ?_⟩, fun hn => absurd h hn, by decide⟩ <;>
      simp [handleChildExit, connect, sleepsOf, hdry, hup, h]
  · refine ⟨?_, fun hy => absurd hy h, fun _ => ⟨?_, ?_, ?_⟩, by decide⟩ <;>
      simp [handleChildExit, connect, sleepsOf, hdry, hup, h]

/-- C6, witnessed at a fresh client (attempts 0 of max 10). -/
theorem C6_claim_witness :
    (handleChildExit freshClient (SpawnResult.ok 2) 0).2.head?
      = some (ClientEffect.emit (PpmsEvent.Disconnected freshClient.interface))
    ∧ exitDelays 8 freshClient = [5, 10, 15, 20, 25, 30, 30, 30] :=
  ⟨(C6_claim freshClient 2 0 rfl rfl).1,
   (C6_claim freshClient 2 0 rfl rfl).2.2.2⟩

/-- The per-interface record (struct ConnectionInfo, manager.rs lines 16-30). -/
structure ConnectionInfo where
  connected_at : Option Instant
  local_ip : Option String
  bytes_sent : Nat
  bytes_received : Nat
  packets_sent : Nat
  packets_received : Nat
  uptime_seconds : Nat
  send_rate_bps : Nat
  receive_rate_bps : Nat
  is_healthy : Bool
  last_health_check : Option Instant
  consecutive_failures : Nat
deriving DecidableEq

/-- The derived Default of ConnectionInfo: options None, counters 0,
is_healthy false. -/
def ConnectionInfo.default : ConnectionInfo :=
  { connected_at := none, local_ip := none, bytes_sent := 0, bytes_received := 0,
    packets_sent := 0, packets_received := 0, uptime_seconds := 0,
    send_rate_bps := 0, receive_rate_bps := 0, is_healthy := false,
    last_health_check := none, consecutive_failures := 0 }

/-- The registry map from interface name to ConnectionInfo (the `data`
BTreeMap of PPPoEManager), as a partial function. -/
abbrev Registry := String → Option ConnectionInfo

/-- The registry before any event: no entries. -/
def Registry.emptyReg : Registry := fun _ => none

/-- Insert or overwrite one entry. -/
def Registry.set (reg : Registry) (k : String) (v : ConnectionInfo) : Registry :=
  fun i => if i = k then some v else reg i

/-- Side effects of one manager operation: running the `ip` utility with the
given arguments, or sending Reconnect on an interface's command channel. -/
inductive MgrEffect where
  | runIp (args : List String)
  | sendReconnect (interface : String)
deriving DecidableEq

/-- The interface index parse in update_connection_info (manager.rs line
252): strip the leading "ppp" repetitions, parse as u32, default 0. -/
def parseIndex (interface : String) : Nat :=
  (parseUint (2 ^ 32) (trimStartPPP interface.data)).getD 0

/-- The full `ip` invocation built by add_default_route (manager.rs lines
261-279). -/
def ipRouteCmd (interface : String) (table_id : Nat) : List String :=
  ["ip", "route", "add", "default", "dev", interface, "table", toString table_id]

/-- PPPoEManager::update_connection_info (manager.rs lines 237-259): look the
entry up or insert the default, run `ip route add` on table 101 + parsed
index (an error from it is only logged — the branch merely logs and falls
through, so `routeOk` influences nothing below), then set local_ip and
connected_at from the event. -/
def update_connection_info (reg : Registry) (interface : String)
    (local_ip : Option String) (connected_at : Option Instant) (_routeOk : Bool) :
    Registry × List MgrEffect :=
  let info := (reg interface).getD ConnectionInfo.default
  let idx := parseIndex interface
  let effs := [MgrEffect.runIp (ipRouteCmd interface (101 + idx))]
  let info := { info with local_ip := local_ip, connected_at := connected_at }
  (reg.set interface info, effs)

/-- PPPoEManager::update_health_status (manager.rs lines 204-235): only a
registered interface is touched; last_health_check is stamped first; success
sets is_healthy and zeroes consecutive_failures; failure clears is_healthy,
increments consecutive_failures and, at the threshold, releases the lock and
sends Reconnect (the counter is not reset by the trigger). -/
def update_health_status (reg : Registry) (threshold : Nat) (interface : String)
    (is_healthy : Bool) (now : Instant) : Registry × List MgrEffect :=
  match reg interface with
  | none => (reg, [])
  | some info =>
    let info := { info with last_health_check := some now }
    if is_healthy then
      (reg.set interface { info with is_healthy := true, consecutive_failures := 0 }, [])
    else
      let info :=
        { info with
          is_healthy := false
          consecutive_failures := info.consecutive_failures + 1 }
      if threshold ≤ info.consecutive_failures then
        (reg.set interface info, [MgrEffect.sendReconnect interface])
      else
        (reg.set interface info, [])

/-- One event dispatch of PPPoEManager::run_event_loop (manager.rs lines
398-411): both arms call update_connection_info, the Disconnected arm with
None, None. -/
def handleEvent (reg : Registry) (e : PpmsEvent) (routeOk : Bool) :
    Registry × List MgrEffect :=
  match e with
  | PpmsEvent.IpUpdated interface local_ip connected_at =>
      update_connection_info reg interface local_ip connected_at routeOk
  | PpmsEvent.Disconnected interface =>
      update_connection_info reg interface none none routeOk

/-- One kernel counter sample for one interface (the sysinfo Networks data
used by the stats task). -/
structure NetSample where
  transmitted : Nat
  received : Nat
  total_received : Nat
  total_transmitted : Nat
  total_packets_received : Nat
  total_packets_transmitted : Nat
deriving DecidableEq

/-- The per-entry body of the stats loop (manager.rs lines 111-124): rates,
totals, and uptime from connected_at when connected. -/
def statsUpdate (info : ConnectionInfo) (net : NetSample) (now : Instant) :
    ConnectionInfo :=
  { info with
    send_rate_bps := net.transmitted * 8,
    receive_rate_bps := net.received * 8,
    bytes_received := net.total_received,
    bytes_sent := net.total_transmitted,
    packets_received := net.total_packets_received,
    packets_sent := net.total_packets_transmitted,
    uptime_seconds :=
      match info.connected_at with
      | some c => now - c
      | none => info.uptime_seconds }

/-- One tick of the stats task over the whole registry; interfaces without a
kernel sample are left unchanged. -/
def statsStep (reg : Registry) (sample : String → Option NetSample) (now : Instant) :
    Registry :=
  fun i => (reg i).map fun info =>
    match sample i with
    | some net => statsUpdate info net now
    | none => info

/-- The registry-mutating operations of the supervisor, each one atomic under
the registry mutex. -/
inductive MgrStep where
  | event (e : PpmsEvent) (routeOk : Bool)
  | health (interface : String) (ok : Bool) (now : Instant)
  | stats (sample : String → Option NetSample) (now : Instant)

/-- The registry after one supervisor step. -/
def applyStep (threshold : Nat) (reg : Registry) (st : MgrStep) : Registry :=
  match st with
  | MgrStep.event e routeOk => (handleEvent reg e routeOk).1
  | MgrStep.health interface ok now => (update_health_status reg threshold interface ok now).1
  | MgrStep.stats sample now => statsStep reg sample now

/-- The registry after a sequence of supervisor steps. -/
def runSteps (threshold : Nat) (reg : Registry) (steps : List MgrStep) : Registry :=
  steps.foldl (applyStep threshold) reg

/-- C5.  Every IpUpdated event upserts the interface's entry (starting from
the derived default when absent), sets local_ip and connected_at from the
event, invokes `ip route add default dev <iface> table <101 + idx>` with the
index parsed as the full numeric suffix (so "ppp10" yields 10), and the
resulting registry does not depend on whether the route install succeeded. -/
theorem C5_claim (reg : Registry) (interface : String) (local_ip : Option String)
    (connected_at : Option Instant) (routeOk : Bool) :
    (handleEvent reg (PpmsEvent.IpUpdated interface local_ip connected_at) routeOk).1 interface
      = some { (reg interface).getD ConnectionInfo.default with
               local_ip := local_ip, connected_at := connected_at }
    ∧ (handleEvent reg (PpmsEvent.IpUpdated interface local_ip connected_at) routeOk).2
      = [MgrEffect.runIp (ipRouteCmd interface (101 + parseIndex interface))]
    ∧ parseIndex "ppp10" = 10
    ∧ (∀ routeOk2 : Bool,
        (handleEvent reg (PpmsEvent.IpUpdated interface local_ip connected_at) routeOk2).1
          = (handleEvent reg (PpmsEvent.IpUpdated interface local_ip connected_at) routeOk).1) := by
  refine ⟨?_, rfl, by decide, fun _ => rfl⟩
  simp [handleEvent, update_connection_info, Registry.set]

/-- C8.  For a registered interface, a successful probe sets is_healthy,
zeroes consecutive_failures and stamps last_health_check; a failed probe
clears is_healthy, increments consecutive_failures by one and stamps
last_health_check, and sends exactly one Reconnect precisely when the
incremented counter reaches the threshold, without resetting the counter. -/
theorem C8_claim (reg : Registry) (threshold : Nat) (interface : String)
    (info : ConnectionInfo) (now : Instant) (h : reg interface = some info) :
    update_health_status reg threshold interface true now
      = (reg.set interface
          { info with
            last_health_check := some now
            is_healthy := true
            consecutive_failures := 0 }, [])
    ∧ update_health_status reg threshold interface false now
      = (reg.set interface
          { info with
            last_health_check := some now
            is_healthy := false
            consecutive_failures := info.consecutive_failures + 1 },
         if threshold ≤ info.consecutive_failures + 1
         then [MgrEffect.sendReconnect interface] else []) := by
  constructor
  · simp [update_health_status, h]
  · by_cases ht : threshold ≤ info.consecutive_failures + 1 <;>
      simp [update_health_status, h, ht]

/-- A concrete entry with one recorded failure and an address. -/
def info0 : ConnectionInfo :=
  { ConnectionInfo.default with
    local_ip := some "1.2.3.4"
    connected_at := some 1
    consecutive_failures := 2 }

/-- A registry holding only ppp0. -/
def reg0 : Registry := Registry.emptyReg.set "ppp0" info0

/-- C8, witnessed at a registry holding ppp0 with two prior failures and
threshold 3: the third failure sends exactly one Reconnect. -/
theorem C8_claim_witness :
    reg0 "ppp0" = some info0
    ∧ update_health_status reg0 3 "ppp0" false 9
      = (reg0.set "ppp0"
          { info0 with
            last_health_check := some 9
            is_healthy := false
            consecutive_failures := 3 },
         [MgrEffect.sendReconnect "ppp0"]) := by
  have h : reg0 "ppp0" = some info0 := by decide
  have h2 := (C8_claim reg0 3 "ppp0" info0 9 h).2
  refine ⟨h, ?_⟩
  rw [h2]
  rfl

/-- Whether a supervisor step is the processing of an IpUpdated event for the
given interface. -/
def isIpUpdatedFor (i : String) : MgrStep → Bool
  | MgrStep.event (PpmsEvent.IpUpdated j _ _) _ => j == i
  | _ => false

/-- Whether a supervisor step is the processing of any event (IpUpdated or
Disconnected) for the given interface — exactly the steps that reach
update_connection_info's entry-or-insert. -/
def stepCreates (i : String) : MgrStep → Bool
  | MgrStep.event (PpmsEvent.IpUpdated j _ _) _ => j == i
  | MgrStep.event (PpmsEvent.Disconnected j) _ => j == i
  | _ => false

/-- Reading the registry returned by update_connection_info at any point. -/
theorem uci_at (reg : Registry) (j i : String) (ip : Option String)
    (ca : Option Instant) (rok : Bool) :
    (update_connection_info reg j ip ca rok).1 i
      = if i = j then
          some { (reg j).getD ConnectionInfo.default with
                 local_ip := ip, connected_at := ca }
        else reg i := by
  simp [update_connection_info, Registry.set]

/-- Equation for update_health_status on an unregistered interface. -/
theorem uhs_eq_none (reg : Registry) (th : Nat) (i : String) (now : Instant)
    (h : reg i = none) :
    update_health_status reg th i true now = (reg, [])
    ∧ update_health_status reg th i false now = (reg, []) := by
  constructor <;> simp [update_health_status, h]

/-- Equation for update_health_status on a successful probe. -/
theorem uhs_eq_ok (reg : Registry) (th : Nat) (i : String) (info : ConnectionInfo)
    (now : Instant) (h : reg i = some info) :
    update_health_status reg th i true now
      = (reg.set i
          { info with
            last_health_check := some now
            is_healthy := true
            consecutive_failures := 0 }, []) := by
  simp [update_health_status, h]

/-- Equation for update_health_status on a failed probe. -/
theorem uhs_eq_fail (reg : Registry) (th : Nat) (i : String) (info : ConnectionInfo)
    (now : Instant) (h : reg i = some info) :
    update_health_status reg th i false now
      = (reg.set i
          { info with
            last_health_check := some now
            is_healthy := false
            consecutive_failures := info.consecutive_failures + 1 },
         if th ≤ info.consecutive_failures + 1
         then [MgrEffect.sendReconnect i] else []) := by
  by_cases ht : th ≤ info.consecutive_failures + 1 <;>
    simp [update_health_status, h, ht]

/-- Overwriting entry `j` with a record sharing `j`'s local_ip and
connected_at changes neither field at any point of the registry. -/
theorem set_frame (reg : Registry) (j i : String) (v info info2 : ConnectionInfo)
    (hj : reg j = some info)
    (hv1 : v.local_ip = info.local_ip) (hv2 : v.connected_at = info.connected_at)
    (hset : reg.set j v i = some info2) :
    ∃ info1, reg i = some info1 ∧ info2.local_ip = info1.local_ip
      ∧ info2.connected_at = info1.connected_at := by
  simp only [Registry.set] at hset
  by_cases hij : i = j
  · rw [if_pos hij] at hset
    cases hset
    exact ⟨info, hij ▸ hj, hv1, hv2⟩
  · rw [if_neg hij] at hset
    exact ⟨info2, hset, rfl, rfl⟩

/-- A health update never changes local_ip or connected_at of any entry, and
never creates an entry. -/
theorem uhs_frame (reg : Registry) (th : Nat) (j : String) (ok : Bool)
    (now : Instant) (i : String) (info2 : ConnectionInfo)
    (h2 : (update_health_status reg th j ok now).1 i = some info2) :
    ∃ info1, reg i = some info1 ∧ info2.local_ip = info1.local_ip
      ∧ info2.connected_at = info1.connected_at := by
  cases hj : reg j with
  | none =>
    cases ok with
    | true => rw [(uhs_eq_none reg th j now hj).1] at h2; exact ⟨info2, h2, rfl, rfl⟩
    | false => rw [(uhs_eq_none reg th j now hj).2] at h2; exact ⟨info2, h2, rfl, rfl⟩
  | some info =>
    cases ok with
    | true =>
      rw [uhs_eq_ok reg th j info now hj] at h2
      exact set_frame reg j i
        { info with
          last_health_check := some now
          is_healthy := true
          consecutive_failures := 0 } info info2 hj rfl rfl h2
    | false =>
      rw [uhs_eq_fail reg th j info now hj] at h2
      exact set_frame reg j i
        { info with
          last_health_check := some now
          is_healthy := false
          consecutive_failures := info.consecutive_failures + 1 } info info2 hj rfl rfl h2

/-- A stats tick never changes local_ip or connected_at of any entry, and
never creates an entry. -/
theorem stats_frame (reg : Registry) (sample : String → Option NetSample)
    (now : Instant) (i : String) (info2 : ConnectionInfo)
    (h2 : statsStep reg sample now i = some info2) :
    ∃ info1, reg i = some info1 ∧ info2.local_ip = info1.local_ip
      ∧ info2.connected_at = info1.connected_at := by
  unfold statsStep at h2
  cases hi : reg i with
  | none => rw [hi] at h2; simp at h2
  | some info =>
    rw [hi] at h2
    simp at h2
    refine ⟨info, rfl, ?_, ?_⟩ <;> cases hs : sample i <;> rw [hs] at h2 <;>
      simp [statsUpdate, ← h2]

/-- Any step that is not an IpUpdated for interface `i` keeps `i`'s local_ip
and connected_at at None once they are None. -/
theorem stepKeepsNone (th : Nat) (reg : Registry) (st : MgrStep) (i : String)
    (hst : isIpUpdatedFor i st = false)
    (hl : ∀ info2, reg i = some info2 →
      info2.local_ip = none ∧ info2.connected_at = none) :
    ∀ info2, applyStep th reg st i = some info2 →
      info2.local_ip = none ∧ info2.connected_at = none := by
  intro info2 h2
  match st with
  | MgrStep.event (PpmsEvent.IpUpdated j ip ca) rok =>
    have hij : ¬ i = j := by
      simp [isIpUpdatedFor] at hst
      exact fun hh => hst (by rw [hh])
    rw [applyStep, handleEvent, uci_at, if_neg hij] at h2
    exact hl info2 h2
  | MgrStep.event (PpmsEvent.Disconnected j) rok =>
    rw [applyStep, handleEvent, uci_at] at h2
    by_cases hij : i = j
    · rw [if_pos hij] at h2
      cases h2
      exact ⟨rfl, rfl⟩
    · rw [if_neg hij] at h2
      exact hl info2 h2
  | MgrStep.health j ok now =>
    obtain ⟨info1, h1, hlip, hca⟩ := uhs_frame reg th j ok now i info2 h2
    obtain ⟨hl1, hc1⟩ := hl info1 h1
    exact ⟨hlip.trans hl1, hca.trans hc1⟩
  | MgrStep.stats sample now =>
    obtain ⟨info1, h1, hlip, hca⟩ := stats_frame reg sample now i info2 h2
    obtain ⟨hl1, hc1⟩ := hl info1 h1
    exact ⟨hlip.trans hl1, hca.trans hc1⟩

/-- Once local_ip and connected_at of `i` are None, they stay None along any
sequence of steps containing no IpUpdated for `i`. -/
theorem runStepsKeepsNone (th : Nat) (i : String) (steps : List MgrStep) :
    ∀ reg : Registry, (∀ st ∈ steps, isIpUpdatedFor i st = false) →
      (∀ info2, reg i = some info2 →
        info2.local_ip = none ∧ info2.connected_at = none) →
      ∀ info2, runSteps th reg steps i = some info2 →
        info2.local_ip = none ∧ info2.connected_at = none := by
  induction steps with
  | nil => intro reg _ hl info2 h2; exact hl info2 h2
  | cons st rest ih =>
    intro reg hs hl info2 h2
    exact ih (applyStep th reg st)
      (fun x hx => hs x (List.mem_cons_of_mem st hx))
      (stepKeepsNone th reg st i (hs st (List.mem_cons_self st rest)) hl)
      info2 h2

/-- C7.  Processing Disconnected for a registered interface sets exactly its
local_ip and connected_at to None and leaves every other field of the entry
unchanged; and both fields remain None across any further steps (events for
other interfaces, Disconnected again, health updates, stats ticks) until an
IpUpdated for that interface is processed. -/
theorem C7_claim (th : Nat) (reg : Registry) (i : String) (info : ConnectionInfo)
    (rok : Bool) (h : reg i = some info) :
    (handleEvent reg (PpmsEvent.Disconnected i) rok).1 i
      = some { info with local_ip := none, connected_at := none }
    ∧ ∀ steps : List MgrStep, (∀ st ∈ steps, isIpUpdatedFor i st = false) →
        ∀ info2, runSteps th ((handleEvent reg (PpmsEvent.Disconnected i) rok).1)
            steps i = some info2 →
          info2.local_ip = none ∧ info2.connected_at = none := by
  have hset : (handleEvent reg (PpmsEvent.Disconnected i) rok).1 i
      = some { info with local_ip := none, connected_at := none } := by
    rw [handleEvent, uci_at, if_pos rfl, h]
    rfl
  refine ⟨hset, fun steps hs info2 h2 => ?_⟩
  refine runStepsKeepsNone th i steps _ hs (fun info3 h3 => ?_) info2 h2
  rw [hset] at h3
  cases h3
  exact ⟨rfl, rfl⟩

/-- Steps used to witness the frame part of C7: a failed probe on ppp0, a
stats tick with no kernel samples, and a Disconnected for another interface. -/
def steps7 : List MgrStep :=
  [MgrStep.health "ppp0" false 9,
   MgrStep.stats (fun _ => none) 10,
   MgrStep.event (PpmsEvent.Disconnected "ppp1") true]

/-- C7, witnessed on a concrete registry holding ppp0 with an address, run
through a health failure, a stats tick and an unrelated Disconnected. -/
theorem C7_claim_witness :
    reg0 "ppp0" = some info0
    ∧ (∀ st ∈ steps7, isIpUpdatedFor "ppp0" st = false)
    ∧ ∀ info2, runSteps 3 ((handleEvent reg0 (PpmsEvent.Disconnected "ppp0") true).1)
        steps7 "ppp0" = some info2 →
      info2.local_ip = none ∧ info2.connected_at = none := by
  have h : reg0 "ppp0" = some info0 := by decide
  have hs : ∀ st ∈ steps7, isIpUpdatedFor "ppp0" st = false := by
    intro st hst
    simp [steps7] at hst
    rcases hst with h1 | h1 | h1 <;> subst h1 <;> rfl
  exact ⟨h, hs, fun info2 h2 =>
    (C7_claim 3 reg0 "ppp0" info0 true h).2 steps7 hs info2 h2⟩

/-- The health invariant: a healthy entry has no recorded consecutive
failures. -/
def healthyInv (reg : Registry) : Prop :=
  ∀ i info, reg i = some info → info.is_healthy = true →
    info.consecutive_failures = 0

/-- Every supervisor step preserves the health invariant. -/
theorem applyStep_healthyInv (th : Nat) (reg : Registry) (st : MgrStep)
    (hinv : healthyInv reg) : healthyInv (applyStep th reg st) := by
  intro i info2 h2 hh
  match st with
  | MgrStep.event (PpmsEvent.IpUpdated j ip ca) rok =>
    rw [applyStep, handleEvent, uci_at] at h2
    by_cases hij : i = j
    · rw [if_pos hij] at h2
      cases h2
      cases hj : reg j with
      | none => simp [hj, ConnectionInfo.default] at hh ⊢
      | some info1 =>
        simp [hj] at hh ⊢
        exact hinv j info1 hj hh
    · rw [if_neg hij] at h2
      exact hinv i info2 h2 hh
  | MgrStep.event (PpmsEvent.Disconnected j) rok =>
    rw [applyStep, handleEvent, uci_at] at h2
    by_cases hij : i = j
    · rw [if_pos hij] at h2
      cases h2
      cases hj : reg j with
      | none => simp [hj, ConnectionInfo.default] at hh ⊢
      | some info1 =>
        simp [hj] at hh ⊢
        exact hinv j info1 hj hh
    · rw [if_neg hij] at h2
      exact hinv i info2 h2 hh
  | MgrStep.health j ok now =>
    have h2a : (update_health_status reg th j ok now).1 i = some info2 := h2
    cases hj : reg j with
    | none =>
      cases ok with
      | true =>
        rw [(uhs_eq_none reg th j now hj).1] at h2a
        exact hinv i info2 h2a hh
      | false =>
        rw [(uhs_eq_none reg th j now hj).2] at h2a
        exact hinv i info2 h2a hh
    | some info1 =>
      cases ok with
      | true =>
        rw [uhs_eq_ok reg th j info1 now hj] at h2a
        simp only [Registry.set] at h2a
        by_cases hij : i = j
        · rw [if_pos hij] at h2a
          cases h2a
          rfl
        · rw [if_neg hij] at h2a
          exact hinv i info2 h2a hh
      | false =>
        rw [uhs_eq_fail reg th j info1 now hj] at h2a
        simp only [Registry.set] at h2a
        by_cases hij : i = j
        · rw [if_pos hij] at h2a
          cases h2a
          simp at hh
        · rw [if_neg hij] at h2a
          exact hinv i info2 h2a hh
  | MgrStep.stats sample now =>
    have h2a : statsStep reg sample now i = some info2 := h2
    simp only [statsStep] at h2a
    cases hi : reg i with
    | none => rw [hi] at h2a; simp at h2a
    | some info1 =>
      rw [hi] at h2a
      simp at h2a
      cases hs : sample i with
      | none =>
        rw [hs] at h2a
        cases h2a
        exact hinv i info1 hi hh
      | some net =>
        rw [hs] at h2a
        cases h2a
        simp [statsUpdate] at hh ⊢
        exact hinv i info1 hi hh

/-- The health invariant holds after any run from an invariant registry. -/
theorem runSteps_healthyInv (th : Nat) (steps : List MgrStep) :
    ∀ reg : Registry, healthyInv reg → healthyInv (runSteps th reg steps) := by
  induction steps with
  | nil => intro reg h; exact h
  | cons st rest ih =>
    intro reg h
    exact ih (applyStep th reg st) (applyStep_healthyInv th reg st h)

/-- C9.  In every registry reachable from startup (no entries) by any
sequence of event dispatches, health updates and stats ticks, a healthy entry
has consecutive_failures equal to zero. -/
theorem C9_claim (th : Nat) (steps : List MgrStep) (i : String)
    (info : ConnectionInfo)
    (h1 : runSteps th Registry.emptyReg steps i = some info)
    (h2 : info.is_healthy = true) :
    info.consecutive_failures = 0 :=
  runSteps_healthyInv th steps Registry.emptyReg
    (fun _ _ hsome _ => by simp [Registry.emptyReg] at hsome) i info h1 h2

/-- Steps used to witness C9: a connection, then a successful probe. -/
def steps9 : List MgrStep :=
  [MgrStep.event (PpmsEvent.IpUpdated "ppp0" (some "1.2.3.4") (some 1)) true,
   MgrStep.health "ppp0" true 2]

/-- The entry that steps9 produces for ppp0. -/
def info9 : ConnectionInfo :=
  { ConnectionInfo.default with
    local_ip := some "1.2.3.4"
    connected_at := some 1
    is_healthy := true
    last_health_check := some 2
    consecutive_failures := 0 }

/-- C9, witnessed at a concrete run that leaves ppp0 healthy. -/
theorem C9_claim_witness :
    runSteps 3 Registry.emptyReg steps9 "ppp0" = some info9
    ∧ info9.is_healthy = true
    ∧ info9.consecutive_failures = 0 :=
  ⟨by decide, rfl, C9_claim 3 steps9 "ppp0" info9 (by decide) rfl⟩

/-- One step changes whether an entry exists exactly when it is an event for
that interface. -/
theorem applyStep_isSome (th : Nat) (reg : Registry) (st : MgrStep) (i : String) :
    (applyStep th reg st i).isSome = ((reg i).isSome || stepCreates i st) := by
  match st with
  | MgrStep.event (PpmsEvent.IpUpdated j ip ca) rok =>
    rw [show applyStep th reg (MgrStep.event (PpmsEvent.IpUpdated j ip ca) rok) i
        = (update_connection_info reg j ip ca rok).1 i from rfl, uci_at]
    by_cases hij : i = j
    · rw [if_pos hij]
      simp [stepCreates, hij]
    · rw [if_neg hij]
      simp [stepCreates]
      intro hji
      exact absurd hji.symm hij
  | MgrStep.event (PpmsEvent.Disconnected j) rok =>
    rw [show applyStep th reg (MgrStep.event (PpmsEvent.Disconnected j) rok) i
        = (update_connection_info reg j none none rok).1 i from rfl, uci_at]
    by_cases hij : i = j
    · rw [if_pos hij]
      simp [stepCreates, hij]
    · rw [if_neg hij]
      simp [stepCreates]
      intro hji
      exact absurd hji.symm hij
  | MgrStep.health j ok now =>
    rw [show applyStep th reg (MgrStep.health j ok now) i
        = (update_health_status reg th j ok now).1 i from rfl]
    have hnc : stepCreates i (MgrStep.health j ok now) = false := rfl
    rw [hnc, Bool.or_false]
    cases hj : reg j with
    | none =>
      cases ok with
      | true => rw [(uhs_eq_none reg th j now hj).1]
      | false => rw [(uhs_eq_none reg th j now hj).2]
    | some info =>
      cases ok with
      | true =>
        rw [uhs_eq_ok reg th j info now hj]
        simp only [Registry.set]
        by_cases hij : i = j
        · rw [if_pos hij, hij, hj]
          rfl
        · rw [if_neg hij]
      | false =>
        rw [uhs_eq_fail reg th j info now hj]
        simp only [Registry.set]
        by_cases hij : i = j
        · rw [if_pos hij, hij, hj]
          rfl
        · rw [if_neg hij]
  | MgrStep.stats sample now =>
    have hnc : stepCreates i (MgrStep.stats sample now) = false := rfl
    rw [hnc, Bool.or_false]
    simp only [applyStep, statsStep]
    cases hi : reg i <;> simp

/-- Entry existence over a run reduces to prior existence or an event step
for the interface. -/
theorem runSteps_isSome (th : Nat) (steps : List MgrStep) :
    ∀ (reg : Registry) (i : String),
      (runSteps th reg steps i).isSome
        = ((reg i).isSome || steps.any (stepCreates i)) := by
  induction steps with
  | nil => intro reg i; simp [runSteps]
  | cons st rest ih =>
    intro reg i
    have hstep : runSteps th reg (st :: rest) = runSteps th (applyStep th reg st) rest := rfl
    rw [hstep, ih (applyStep th reg st) i, applyStep_isSome th reg st i,
      List.any_cons, Bool.or_assoc]

/-- C10 counterexample.  Processing a single Disconnected event for a
never-connected interface creates its registry entry (with the default
record): entries are not created only by IpUpdated. -/
theorem C10_counterexample :
    runSteps 3 Registry.emptyReg
        [MgrStep.event (PpmsEvent.Disconnected "ppp3") true] "ppp3"
      = some ConnectionInfo.default
    ∧ (runSteps 3 Registry.emptyReg
        [MgrStep.event (PpmsEvent.Disconnected "ppp3") true] "ppp3").isSome = true := by
  constructor
  · decide
  · decide

/-- C10 amended.  Starting from the empty registry, an interface has an entry
after a run exactly when the run processed some event — IpUpdated or
Disconnected — for that interface (both event arms call
update_connection_info, whose entry-or-insert creates the record); entries
are never removed, and no health update or stats tick creates one. -/
theorem C10_amended (th : Nat) (steps : List MgrStep) (i : String) :
    (runSteps th Registry.emptyReg steps i).isSome = steps.any (stepCreates i) := by
  rw [runSteps_isSome th steps Registry.emptyReg i]
  rfl

/-- The two supervisor mutexes: `data` (the registry) and `client_controls`
(the command-channel map) of struct PPPoEManager. -/
inductive LockId where
  | registry
  | controls
deriving DecidableEq

/-- The primitive actions relevant to the lock discipline, in the order the
source performs them: mutex acquisition and release, an awaited channel send,
an awaited external-process spawn, and an awaited sleep. -/
inductive PrimAction where
  | acquire (l : LockId)
  | release (l : LockId)
  | channelSend
  | processSpawn
  | sleepStep
deriving DecidableEq

/-- Whether, scanning the trace with the given lock currently held or not,
some send, spawn or sleep happens while the lock is held. -/
def heldAcrossAux (l : LockId) : List PrimAction → Bool → Bool
  | [], _ => false
  | PrimAction.acquire l2 :: rest, held =>
      heldAcrossAux l rest (held || decide (l2 = l))
  | PrimAction.release l2 :: rest, held =>
      heldAcrossAux l rest (held && !(decide (l2 = l)))
  | PrimAction.channelSend :: rest, held => held || heldAcrossAux l rest held
  | PrimAction.processSpawn :: rest, held => held || heldAcrossAux l rest held
  | PrimAction.sleepStep :: rest, held => held || heldAcrossAux l rest held

/-- Whether a suspensive action (send, spawn, sleep) occurs in the trace
while the given lock is held. -/
def heldAcross (l : LockId) (t : List PrimAction) : Bool :=
  heldAcrossAux l t false

/-- PPPoEManager::reconnect_client (manager.rs lines 302-312): the controls
map is locked, and when the interface is found the Reconnect send is awaited
while the lock is still held; the lock is released when the function
returns. -/
def reconnect_client_trace (found : Bool) : List PrimAction :=
  [PrimAction.acquire LockId.controls]
    ++ (if found then [PrimAction.channelSend] else [])
    ++ [PrimAction.release LockId.controls]

/-- PPPoEManager::connect_client and disconnect_client (manager.rs lines
314-336) have the same action shape as reconnect_client. -/
def command_client_trace (found : Bool) : List PrimAction :=
  reconnect_client_trace found

/-- PPPoEManager::stop_all (manager.rs lines 281-289): all Disconnect sends
happen inside the controls lock. -/
def stop_all_trace (n : Nat) : List PrimAction :=
  [PrimAction.acquire LockId.controls]
    ++ List.replicate n PrimAction.channelSend
    ++ [PrimAction.release LockId.controls]

/-- PPPoEManager::start_all (manager.rs lines 291-300): each Connect send and
the 100 ms stagger sleep happen inside the controls lock. -/
def start_all_trace (n : Nat) : List PrimAction :=
  [PrimAction.acquire LockId.controls]
    ++ (List.replicate n [PrimAction.channelSend, PrimAction.sleepStep]).flatten
    ++ [PrimAction.release LockId.controls]

/-- PPPoEManager::update_health_status (manager.rs lines 204-235): the
registry is locked; when the entry is found, the probe failed and the
incremented counter reaches the threshold, `drop(data)` releases the registry
before reconnect_client runs; on every other path the lock is released when
the scope ends, with no suspension in between. -/
def update_health_status_trace (found ok hit sendFound : Bool) : List PrimAction :=
  [PrimAction.acquire LockId.registry]
    ++ (if found && !ok && hit then
          PrimAction.release LockId.registry :: reconnect_client_trace sendFound
        else [PrimAction.release LockId.registry])

/-- PPPoEManager::update_connection_info (manager.rs lines 237-259): the
registry lock is taken and `self.add_default_route(...)` — an awaited spawn
of the `ip` utility — runs before the lock scope ends. -/
def update_connection_info_trace : List PrimAction :=
  [PrimAction.acquire LockId.registry, PrimAction.processSpawn,
   PrimAction.release LockId.registry]

/-- PPPoEManager::get_all_stats (manager.rs lines 338-341): lock, clone,
release. -/
def get_all_stats_trace : List PrimAction :=
  [PrimAction.acquire LockId.registry, PrimAction.release LockId.registry]

/-- One iteration of the stats loop (manager.rs lines 107-126): the sleep
precedes the lock and the in-lock counter updates are synchronous. -/
def stats_tick_trace : List PrimAction :=
  [PrimAction.sleepStep, PrimAction.acquire LockId.registry,
   PrimAction.release LockId.registry]

/-- The snapshot part of one liveness-loop iteration (manager.rs lines
147-168): sleep, snapshot the connected interfaces under the registry lock,
release, then run the n ping probes; the per-interface update_health_status
calls that follow have their own trace. -/
def health_tick_snapshot_trace (n : Nat) : List PrimAction :=
  [PrimAction.sleepStep, PrimAction.acquire LockId.registry,
   PrimAction.release LockId.registry]
    ++ List.replicate n PrimAction.processSpawn

/-- A trace of send-free, spawn-only actions starting unheld stays clean. -/
theorem heldAux_spawns (l : LockId) (n : Nat) :
    heldAcrossAux l (List.replicate n PrimAction.processSpawn) false = false := by
  induction n with
  | zero => rfl
  | succ k ih =>
    rw [List.replicate_succ]
    simp [heldAcrossAux, ih]

/-- C3 counterexample.  The command-channel mutex is held across the Connect
send and the 100 ms stagger sleep in start_all, across the Disconnect sends
in stop_all and across the Reconnect send in reconnect_client; and the
registry mutex is held across the `ip route` process spawn in
update_connection_info.  The claimed discipline is violated. -/
theorem C3_counterexample :
    heldAcross LockId.controls (start_all_trace 1) = true
    ∧ heldAcross LockId.controls (stop_all_trace 1) = true
    ∧ heldAcross LockId.controls (reconnect_client_trace true) = true
    ∧ heldAcross LockId.registry update_connection_info_trace = true := by
  decide

/-- C3 amended.  The registry mutex is never held across a send, spawn or
sleep by update_health_status (on every branch it is released before the
Reconnect send), nor by get_all_stats, the stats tick, or the liveness
snapshot; but the command-channel mutex is held across every command send
(and across the stagger sleep in start_all), and the registry mutex is held
across the route-install spawn in update_connection_info. -/
theorem C3_amended :
    (∀ found ok hit sendFound : Bool,
      heldAcross LockId.registry
        (update_health_status_trace found ok hit sendFound) = false)
    ∧ heldAcross LockId.registry get_all_stats_trace = false
    ∧ heldAcross LockId.registry stats_tick_trace = false
    ∧ (∀ n : Nat,
        heldAcross LockId.registry (health_tick_snapshot_trace n) = false)
    ∧ (∀ n : Nat, heldAcross LockId.controls (stop_all_trace (n + 1)) = true)
    ∧ (∀ n : Nat, heldAcross LockId.controls (start_all_trace (n + 1)) = true)
    ∧ (∀ found : Bool,
        heldAcross LockId.controls (reconnect_client_trace found) = found)
    ∧ heldAcross LockId.registry update_connection_info_trace = true := by
  refine ⟨by decide, by decide, by decide, fun n => ?_, fun n => ?_,
    fun n => ?_, by decide, by decide⟩
  · simp [health_tick_snapshot_trace, heldAcross, heldAcrossAux, heldAux_spawns]
  · simp [stop_all_trace, heldAcross, heldAcrossAux, List.replicate_succ]
  · simp [start_all_trace, heldAcross, heldAcrossAux, List.replicate_succ]

end PppoeSocks
